import Mathlib

set_option maxRecDepth 100000

/-!
Verification of the wallet-file serializer
(`src/wallet_legacy/WalletLegacySerializer.cpp`) against its
natural-language specification.

The serializer's collaborators (the binary field codec, the chacha8 stream
cipher, the curve-key checks, and the transaction-history codec) live
outside the given source; they are modelled from the spec's wire-format
section and passed in through an `Externals` record where their behaviour
is genuinely opaque. Bytes are `Nat` values; fixed-width integers are
encoded little-endian.
-/

namespace WalletLegacy

/-- Little-endian encoding of `v` in `n` bytes (the shared binary codec's
fixed-width integer layout, modelled from the spec's wire format). -/
def toLE : Nat → Nat → List Nat
  | 0, _ => []
  | n + 1, v => v % 256 :: toLE n (v / 256)

/-- Little-endian decoding of a byte list. -/
def fromLE : List Nat → Nat
  | [] => 0
  | b :: r => b + 256 * fromLE r

/-- Reading a fixed-width `n`-byte integer from the front of a stream;
fails when fewer than `n` bytes remain. -/
def getFixed (n : Nat) (l : List Nat) : Option (Nat × List Nat) :=
  if n ≤ l.length then some (fromLE (l.take n), l.drop n) else none

/-- Length-prefixed byte blob, as the binary codec writes strings
(modelled from the spec: `length-prefixed byte blob`). -/
def putBlob (s : List Nat) : List Nat :=
  toLE 4 s.length ++ s

/-- Reading a length-prefixed byte blob. -/
def getBlob (l : List Nat) : Option (List Nat × List Nat) :=
  match getFixed 4 l with
  | none => none
  | some (n, r) => if n ≤ r.length then some (r.take n, r.drop n) else none

/-- One-byte boolean encoding. -/
def putBool (b : Bool) : List Nat :=
  [if b then 1 else 0]

/-- Reading a one-byte boolean; a nonzero byte reads as `true`. -/
def getBool (l : List Nat) : Option (Bool × List Nat) :=
  match l with
  | [] => none
  | b :: r => some (decide (b ≠ 0), r)

/-- Transaction-history cache content, opaque to the serializer. -/
abbrev Details := List Nat

/-- Account key material as held by the caller's account object
(`AccountKeys` of `core/Account.h`; each key a 32-byte value, here a
`Nat` below `2 ^ 256`). -/
structure AccountKeys where
  spendPublicKey : Nat
  viewPublicKey : Nat
  spendSecretKey : Nat
  viewSecretKey : Nat
  deriving Repr, DecidableEq

/-- The caller-owned account object: keys plus creation timestamp,
accessed by the serializer through get/set methods. -/
structure AccountBase where
  keys : AccountKeys
  createtime : Nat
  deriving Repr, DecidableEq

/-- The all-zero sentinel secret key marking a watch-only wallet. -/
def NULL_SECRET_KEY : Nat := 0

/-- On-disk key record (`KeysStorage`), field order fixed:
creationTimestamp, spendPublicKey, spendSecretKey, viewPublicKey,
viewSecretKey. -/
structure KeysStorage where
  creationTimestamp : Nat
  spendPublicKey : Nat
  spendSecretKey : Nat
  viewPublicKey : Nat
  viewSecretKey : Nat
  deriving Repr, DecidableEq

/-- Modelled from the spec: the `KeysStorage::serialize` write path
(not under `src/`), emitting the order-fixed record: u64 timestamp then
the four 32-byte keys. -/
def keysStorageBytes (k : KeysStorage) : List Nat :=
  toLE 8 k.creationTimestamp ++ toLE 32 k.spendPublicKey ++
    toLE 32 k.spendSecretKey ++ toLE 32 k.viewPublicKey ++ toLE 32 k.viewSecretKey

/-- Modelled from the spec: the `KeysStorage::serialize` read path
(not under `src/`); fails when the plaintext is too short. -/
def keysStorageParse (l : List Nat) : Option (KeysStorage × List Nat) :=
  match getFixed 8 l with
  | none => none
  | some (ts, r1) =>
    match getFixed 32 r1 with
    | none => none
    | some (spk, r2) =>
      match getFixed 32 r2 with
      | none => none
      | some (ssk, r3) =>
        match getFixed 32 r3 with
        | none => none
        | some (vpk, r4) =>
          match getFixed 32 r4 with
          | none => none
          | some (vsk, r5) => some (⟨ts, spk, ssk, vpk, vsk⟩, r5)

/-- The collaborators the serializer consumes through narrow interfaces:
the chacha8 keystream, password-to-key derivation, curve-point validity
(`Crypto::check_key`), secret/public correspondence (the check behind
`throwIfKeysMissmatch`), and the transaction-history codec's current
encoder/decoder and legacy-v1 decoder. All are opaque here. -/
structure Externals where
  keystream : Nat → Nat → Nat → Nat
  deriveKey : List Nat → Nat
  checkKey : Nat → Bool
  keysMatch : Nat → Nat → Bool
  encodeDetails : Details → List Nat
  decodeDetails : List Nat → Option (Details × List Nat)
  decodeDetailsLegacyV1 : List Nat → Option (Details × List Nat)

/-- One pass of the stream cipher from keystream position `i`. -/
def chacha8From (ext : Externals) (key iv : Nat) : Nat → List Nat → List Nat
  | _, [] => []
  | i, b :: r => (b ^^^ ext.keystream key iv i % 256) :: chacha8From ext key iv (i + 1) r

/-- The chacha8 stream cipher (`Crypto::chacha8`, modelled from the spec:
a keystream determined by key and IV, combined bytewise by xor with the
data; output length equals input length). -/
def chacha8 (ext : Externals) (key iv : Nat) (data : List Nat) : List Nat :=
  chacha8From ext key iv 0 data

/-- The tag opening the outer tagged object (`beginObject("wallet")`),
modelled from the spec's wire format as the marker bytes of `wallet`. -/
def walletTag : List Nat := [119, 97, 108, 108, 101, 116]

/-- The writer's side of the outer envelope: tag, u32 version, 8-byte IV,
length-prefixed ciphertext, in that order. -/
def writeEnvelope (version iv : Nat) (cipher : List Nat) : List Nat :=
  walletTag ++ toLE 4 version ++ toLE 8 iv ++ putBlob cipher

/-- The reader's side of the outer envelope; `none` models the
malformed-envelope failure of the outer tagged-object decode. -/
def parseEnvelope (l : List Nat) : Option (Nat × Nat × List Nat × List Nat) :=
  if l.take 6 = walletTag then
    match getFixed 4 (l.drop 6) with
    | none => none
    | some (version, r1) =>
      match getFixed 8 r1 with
      | none => none
      | some (iv, r2) =>
        match getBlob r2 with
        | none => none
        | some (cipher, r3) => some (version, iv, cipher, r3)
  else none

/-- The version constant the writer emits
(`walletSerializationVersion`, set to `1` in the constructor,
`WalletLegacySerializer.cpp:24`). -/
def walletSerializationVersion : Nat := 1

/-- `WalletLegacySerializer::saveKeys`: copies the account's keys and
creation time into a `KeysStorage` record and serializes it. -/
def saveKeys (account : AccountBase) : List Nat :=
  keysStorageBytes
    { creationTimestamp := account.createtime
      spendPublicKey := account.keys.spendPublicKey
      spendSecretKey := account.keys.spendSecretKey
      viewPublicKey := account.keys.viewPublicKey
      viewSecretKey := account.keys.viewSecretKey }

/-- `WalletLegacySerializer::encrypt`: derives the chacha8 key from the
password and runs the stream cipher; the randomly generated IV is a
parameter here and is returned alongside the ciphertext. -/
def encrypt (ext : Externals) (plain password : List Nat) (iv : Nat) : Nat × List Nat :=
  (iv, chacha8 ext (ext.deriveKey password) iv plain)

/-- `WalletLegacySerializer::decrypt`: derives the same key from the
password and runs the cipher over the ciphertext. -/
def decrypt (ext : Externals) (cipher password : List Nat) (iv : Nat) : List Nat :=
  chacha8 ext (ext.deriveKey password) iv cipher

/-- `WalletLegacySerializer::serialize`: assembles the plaintext payload
(keys, has_details flag, optional details block, cache blob), encrypts
it, and writes the outer envelope with the writer's version constant. -/
def serialize (ext : Externals) (account : AccountBase) (details : Details)
    (password : List Nat) (saveDetailed : Bool) (cache : List Nat) (iv : Nat) : List Nat :=
  let plain := saveKeys account ++ putBool saveDetailed ++
    (if saveDetailed then ext.encodeDetails details else []) ++ putBlob cache
  let c := encrypt ext plain password iv
  writeEnvelope walletSerializationVersion c.1 c.2

/-- The typed failures of the read path. `MalformedEnvelope` and
`ParseError` are modelled from the spec's error-kind mapping: an outer
envelope decode failure, and an uncaught decode failure after the key
block. `WrongPassword` is `CryptoNote::error::WRONG_PASSWORD`. -/
inductive WalletError where
  | MalformedEnvelope
  | WrongPassword
  | ParseError
  deriving Repr, DecidableEq

/-- The observable outcome of `deserialize`: the final states of the
caller's account object, cache out-parameter and transactions cache,
plus the failure, if any. -/
structure DeserializeResult where
  account : AccountBase
  cache : List Nat
  details : Details
  outcome : Option WalletError
  deriving Repr, DecidableEq

/-- The account object as `loadKeys` populates it from the decoded
record (`setAccountKeys` / `set_createtime`). -/
def accountFromKeys (ks : KeysStorage) : AccountBase :=
  { keys :=
      { spendPublicKey := ks.spendPublicKey
        viewPublicKey := ks.viewPublicKey
        spendSecretKey := ks.spendSecretKey
        viewSecretKey := ks.viewSecretKey }
    createtime := ks.creationTimestamp }

/-- The key-consistency verification of `deserialize` (lines 110-118),
reading back from the already-populated account: the view pair must
correspond; the spend pair must correspond when the spend secret key is
not the null sentinel, otherwise the spend public key alone must be a
valid curve point. -/
def verifyKeys (ext : Externals) (a : AccountBase) : Bool :=
  ext.keysMatch a.keys.viewSecretKey a.keys.viewPublicKey &&
    (if a.keys.spendSecretKey ≠ NULL_SECRET_KEY then
      ext.keysMatch a.keys.spendSecretKey a.keys.spendPublicKey
    else ext.checkKey a.keys.spendPublicKey)

/-- The final stage of `deserialize`: reading the cache blob into the
caller's out-parameter (line 132). -/
def finishCache (acc1 : AccountBase) (d1 : Details) (cache0 r3 : List Nat) : DeserializeResult :=
  match getBlob r3 with
  | none => ⟨acc1, cache0, d1, some .ParseError⟩
  | some (c, _) => ⟨acc1, c, d1, none⟩

/-- The details-decoding stage of `deserialize`, run with whichever
decoder the version dispatch selected. -/
def finishDetails (dec : List Nat → Option (Details × List Nat)) (acc1 : AccountBase)
    (details0 : Details) (cache0 r2 : List Nat) : DeserializeResult :=
  match dec r2 with
  | none => ⟨acc1, cache0, details0, some .ParseError⟩
  | some (d1, r3) => finishCache acc1 d1 cache0 r3

/-- The tail of `deserialize` once the key verification has passed:
read the has_details flag, decode the optional details block through
the version dispatch (lines 120-130), then read the cache blob. -/
def afterVerify (ext : Externals) (version : Nat) (acc1 : AccountBase)
    (details0 : Details) (cache0 r1 : List Nat) : DeserializeResult :=
  match getBool r1 with
  | none => ⟨acc1, cache0, details0, some .ParseError⟩
  | some (detailsSaved, r2) =>
    if detailsSaved then
      finishDetails
        (if version = 1 then ext.decodeDetailsLegacyV1 else ext.decodeDetails)
        acc1 details0 cache0 r2
    else finishCache acc1 details0 cache0 r2

/-- `WalletLegacySerializer::deserialize`: parse the envelope, decrypt,
decode the key block (a decode failure there is mapped to
`WrongPassword` by `loadKeys`, which otherwise commits the keys to the
account at once), verify key consistency, then decode the optional
details block through the version dispatch and finally the cache blob.
`acc0`, `details0` and `cache0` are the prior states of the caller's
in-out objects. -/
def deserialize (ext : Externals) (input password : List Nat)
    (acc0 : AccountBase) (details0 : Details) (cache0 : List Nat) : DeserializeResult :=
  match parseEnvelope input with
  | none => ⟨acc0, cache0, details0, some .MalformedEnvelope⟩
  | some (version, iv, cipher, _) =>
    match keysStorageParse (decrypt ext cipher password iv) with
    | none => ⟨acc0, cache0, details0, some .WrongPassword⟩
    | some (ks, r1) =>
      if verifyKeys ext (accountFromKeys ks) then
        afterVerify ext version (accountFromKeys ks) details0 cache0 r1
      else ⟨accountFromKeys ks, cache0, details0, some .WrongPassword⟩

/-- Whether the tail of `deserialize` after key verification fails
before it reaches the final cache-blob read. -/
def afterVerifyFails (ext : Externals) (version : Nat) (r1 : List Nat) : Bool :=
  match getBool r1 with
  | none => true
  | some (detailsSaved, r2) =>
    if detailsSaved then
      ((if version = 1 then ext.decodeDetailsLegacyV1 else ext.decodeDetails) r2).isNone
    else false

/-- Whether a `deserialize` run fails at one of the stages before the
final cache-blob read: envelope parse, key-block decode, key
verification, the has_details read, or the details decode. -/
def failsBeforeCacheRead (ext : Externals) (input password : List Nat) : Bool :=
  match parseEnvelope input with
  | none => true
  | some (version, iv, cipher, _) =>
    match keysStorageParse (decrypt ext cipher password iv) with
    | none => true
    | some (ks, r1) =>
      if verifyKeys ext (accountFromKeys ks) then afterVerifyFails ext version r1
      else true

/-- A concrete instantiation of the opaque collaborators, used for the
closed evaluations below: a zero keystream, key correspondence as
equality, every public key a valid curve point, the current
transaction-history codec a length-prefixed blob (so it round-trips),
and a legacy-v1 decoder that accepts no current-format input (the two
layouts are structurally different). -/
def extA : Externals :=
  { keystream := fun _ _ _ => 0
    deriveKey := fun _ => 0
    checkKey := fun _ => true
    keysMatch := fun s p => decide (s = p)
    encodeDetails := putBlob
    decodeDetails := getBlob
    decodeDetailsLegacyV1 := fun _ => none }

/-- A consistent account under `extA`: both key pairs correspond. -/
def accGood : AccountBase :=
  { keys := { spendPublicKey := 3, viewPublicKey := 4, spendSecretKey := 3, viewSecretKey := 4 }
    createtime := 5 }

/-- An account whose view pair does not correspond under `extA`. -/
def accBadView : AccountBase :=
  { keys := { spendPublicKey := 3, viewPublicKey := 4, spendSecretKey := 3, viewSecretKey := 9 }
    createtime := 5 }

/-- A watch-only account (null spend secret key) whose spend public key
is a valid curve point under `extA` but whose view pair does not
correspond. -/
def accWatchBadView : AccountBase :=
  { keys := { spendPublicKey := 3, viewPublicKey := 4, spendSecretKey := 0, viewSecretKey := 9 }
    createtime := 5 }

/-- The prior state of the reading side's account object, distinct from
every account appearing in a stream below. -/
def accPrior : AccountBase :=
  { keys :=
      { spendPublicKey := 100, viewPublicKey := 101, spendSecretKey := 102, viewSecretKey := 103 }
    createtime := 99 }

/-- The key record decoded from a stream written from `accBadView`. -/
def ksBadView : KeysStorage := ⟨5, 3, 3, 4, 9⟩

/-- The key record decoded from a stream written from `accGood`. -/
def ksGood : KeysStorage := ⟨5, 3, 3, 4, 4⟩

theorem toLE_length : ∀ (n v : Nat), (toLE n v).length = n
  | 0, _ => rfl
  | n + 1, v => by simp [toLE, toLE_length n (v / 256)]

theorem fromLE_toLE : ∀ (n v : Nat), fromLE (toLE n v) = v % 256 ^ n
  | 0, v => by simp [toLE, fromLE, Nat.mod_one]
  | n + 1, v => by
    rw [toLE, fromLE, fromLE_toLE n (v / 256), Nat.pow_succ, Nat.mul_comm (256 ^ n) 256]
    exact Nat.mod_mul.symm

theorem getFixed_append (n v : Nat) (rest : List Nat) :
    getFixed n (toLE n v ++ rest) = some (v % 256 ^ n, rest) := by
  have hlen : n ≤ (toLE n v ++ rest).length := by
    simp [toLE_length]
  rw [getFixed, if_pos hlen, List.take_left' (toLE_length n v),
    List.drop_left' (toLE_length n v), fromLE_toLE]

theorem getBlob_putBlob (s rest : List Nat) (h : s.length < 2 ^ 32) :
    getBlob (putBlob s ++ rest) = some (s, rest) := by
  have hm : s.length % 256 ^ 4 = s.length := Nat.mod_eq_of_lt (by norm_num at h ⊢; omega)
  rw [putBlob, List.append_assoc, getBlob, getFixed_append, hm]
  simp [List.take_left, List.drop_left]

theorem getBool_putBool (b : Bool) (rest : List Nat) :
    getBool (putBool b ++ rest) = some (b, rest) := by
  cases b <;> rfl

theorem keysStorageParse_append (k : KeysStorage) (rest : List Nat)
    (hts : k.creationTimestamp < 2 ^ 64)
    (h1 : k.spendPublicKey < 2 ^ 256) (h2 : k.spendSecretKey < 2 ^ 256)
    (h3 : k.viewPublicKey < 2 ^ 256) (h4 : k.viewSecretKey < 2 ^ 256) :
    keysStorageParse (keysStorageBytes k ++ rest) = some (k, rest) := by
  have e64 : (256 : Nat) ^ 8 = 2 ^ 64 := by norm_num
  have e256 : (256 : Nat) ^ 32 = 2 ^ 256 := by norm_num
  have mts : k.creationTimestamp % 256 ^ 8 = k.creationTimestamp :=
    Nat.mod_eq_of_lt (by rw [e64]; exact hts)
  have m1 : k.spendPublicKey % 256 ^ 32 = k.spendPublicKey :=
    Nat.mod_eq_of_lt (by rw [e256]; exact h1)
  have m2 : k.spendSecretKey % 256 ^ 32 = k.spendSecretKey :=
    Nat.mod_eq_of_lt (by rw [e256]; exact h2)
  have m3 : k.viewPublicKey % 256 ^ 32 = k.viewPublicKey :=
    Nat.mod_eq_of_lt (by rw [e256]; exact h3)
  have m4 : k.viewSecretKey % 256 ^ 32 = k.viewSecretKey :=
    Nat.mod_eq_of_lt (by rw [e256]; exact h4)
  simp only [keysStorageBytes, List.append_assoc]
  simp only [keysStorageParse, getFixed_append, mts, m1, m2, m3, m4]

theorem parseEnvelope_writeEnvelope (version iv : Nat) (cipher : List Nat)
    (hv : version < 2 ^ 32) (hiv : iv < 2 ^ 64) (hc : cipher.length < 2 ^ 32) :
    parseEnvelope (writeEnvelope version iv cipher) = some (version, iv, cipher, []) := by
  have mv : version % 256 ^ 4 = version := Nat.mod_eq_of_lt (by norm_num at hv ⊢; omega)
  have miv : iv % 256 ^ 8 = iv := Nat.mod_eq_of_lt (by norm_num at hiv ⊢; omega)
  have htag : walletTag.length = 6 := rfl
  rw [writeEnvelope, List.append_assoc, List.append_assoc]
  rw [parseEnvelope, List.take_left' htag, if_pos rfl, List.drop_left' htag]
  rw [getFixed_append, mv]
  simp only
  rw [getFixed_append, miv]
  simp only
  rw [← List.append_nil (putBlob cipher), getBlob_putBlob cipher [] hc]

theorem chacha8From_chacha8From (ext : Externals) (key iv : Nat) :
    ∀ (i : Nat) (l : List Nat),
      chacha8From ext key iv i (chacha8From ext key iv i l) = l
  | _, [] => rfl
  | i, b :: r => by
    simp only [chacha8From, chacha8From_chacha8From ext key iv (i + 1) r,
      Nat.xor_assoc, Nat.xor_self, Nat.xor_zero]

theorem chacha8From_length (ext : Externals) (key iv : Nat) :
    ∀ (i : Nat) (l : List Nat), (chacha8From ext key iv i l).length = l.length
  | _, [] => rfl
  | i, _ :: r => by
    simp only [chacha8From, List.length_cons, chacha8From_length ext key iv (i + 1) r]

theorem chacha8_chacha8 (ext : Externals) (key iv : Nat) (l : List Nat) :
    chacha8 ext key iv (chacha8 ext key iv l) = l :=
  chacha8From_chacha8From ext key iv 0 l

theorem chacha8_length (ext : Externals) (key iv : Nat) (l : List Nat) :
    (chacha8 ext key iv l).length = l.length :=
  chacha8From_length ext key iv 0 l

theorem finishCache_account (acc1 : AccountBase) (d1 : Details) (cache0 r3 : List Nat) :
    (finishCache acc1 d1 cache0 r3).account = acc1 := by
  unfold finishCache
  split <;> rfl

theorem finishCache_outcome (acc1 : AccountBase) (d1 : Details) (cache0 r3 : List Nat) :
    (finishCache acc1 d1 cache0 r3).outcome ≠ some WalletError.WrongPassword := by
  unfold finishCache
  split <;> simp

theorem finishDetails_account (dec : List Nat → Option (Details × List Nat))
    (acc1 : AccountBase) (details0 : Details) (cache0 r2 : List Nat) :
    (finishDetails dec acc1 details0 cache0 r2).account = acc1 := by
  unfold finishDetails
  split
  · rfl
  · exact finishCache_account ..

theorem finishDetails_outcome (dec : List Nat → Option (Details × List Nat))
    (acc1 : AccountBase) (details0 : Details) (cache0 r2 : List Nat) :
    (finishDetails dec acc1 details0 cache0 r2).outcome ≠ some WalletError.WrongPassword := by
  unfold finishDetails
  split
  · simp
  · apply finishCache_outcome

theorem afterVerify_account (ext : Externals) (version : Nat) (acc1 : AccountBase)
    (details0 : Details) (cache0 r1 : List Nat) :
    (afterVerify ext version acc1 details0 cache0 r1).account = acc1 := by
  unfold afterVerify
  split
  · rfl
  · split
    · exact finishDetails_account ..
    · exact finishCache_account ..

theorem afterVerify_outcome (ext : Externals) (version : Nat) (acc1 : AccountBase)
    (details0 : Details) (cache0 r1 : List Nat) :
    (afterVerify ext version acc1 details0 cache0 r1).outcome ≠ some WalletError.WrongPassword := by
  unfold afterVerify
  split
  · simp
  · split
    · apply finishDetails_outcome
    · apply finishCache_outcome

theorem afterVerify_cache_of_fails (ext : Externals) (version : Nat) (acc1 : AccountBase)
    (details0 : Details) (cache0 r1 : List Nat)
    (h : afterVerifyFails ext version r1 = true) :
    (afterVerify ext version acc1 details0 cache0 r1).cache = cache0 := by
  rcases hb : getBool r1 with _ | ⟨b, r2⟩
  · simp [afterVerify, hb]
  · simp only [afterVerifyFails, hb] at h
    cases b
    · simp at h
    · simp only [if_true] at h
      simp only [afterVerify, hb, if_true]
      rcases hd : (if version = 1 then ext.decodeDetailsLegacyV1 else ext.decodeDetails) r2
        with _ | ⟨d, r3⟩
      · simp [finishDetails, hd]
      · simp [hd] at h

/-- C8: for every plaintext byte string, password and IV, running
`decrypt` on the ciphertext produced by `encrypt` with the same password
and the IV returned by `encrypt` yields exactly the original plaintext,
for every keystream and key-derivation function. -/
theorem c8_decrypt_encrypt_roundtrip (ext : Externals) (plain password : List Nat) (iv : Nat) :
    decrypt ext (encrypt ext plain password iv).2 password (encrypt ext plain password iv).1
      = plain :=
  chacha8_chacha8 ext (ext.deriveKey password) iv plain

/-- C9: the ciphertext produced by `encrypt` has exactly the length of
the plaintext, and the plaintext produced by `decrypt` has exactly the
length of the ciphertext. -/
theorem c9_cipher_preserves_length (ext : Externals) (plain cipher password : List Nat)
    (iv : Nat) :
    (encrypt ext plain password iv).2.length = plain.length ∧
    (decrypt ext cipher password iv).length = cipher.length :=
  ⟨chacha8_length ext (ext.deriveKey password) iv plain,
    chacha8_length ext (ext.deriveKey password) iv cipher⟩

/-- C5: whenever the key block fails to decode from the decrypted
plaintext, `deserialize` surfaces exactly the `WrongPassword` error and
leaves the caller's objects unchanged. -/
theorem c5_keyblock_decode_failure_is_wrong_password (ext : Externals)
    (input password : List Nat) (acc0 : AccountBase) (details0 : Details) (cache0 : List Nat)
    (version iv : Nat) (cipher rest : List Nat)
    (henv : parseEnvelope input = some (version, iv, cipher, rest))
    (hkp : keysStorageParse (decrypt ext cipher password iv) = none) :
    deserialize ext input password acc0 details0 cache0 =
      ⟨acc0, cache0, details0, some WalletError.WrongPassword⟩ := by
  simp only [deserialize, henv, hkp]

/-- Witness for C5: a stream whose envelope carries a three-byte
ciphertext, too short for the key block, fails with `WrongPassword`. -/
theorem c5_keyblock_decode_failure_is_wrong_password_witness :
    deserialize extA (writeEnvelope 1 0 [1, 2, 3]) [4] accPrior [5] [0] =
      ⟨accPrior, [0], [5], some WalletError.WrongPassword⟩ :=
  c5_keyblock_decode_failure_is_wrong_password extA (writeEnvelope 1 0 [1, 2, 3]) [4]
    accPrior [5] [0] 1 0 [1, 2, 3] [] rfl rfl

/-- C7: whenever the outer tagged-object structure does not parse,
`deserialize` fails with `MalformedEnvelope` whatever the password, the
caller's objects are unchanged, and `MalformedEnvelope` is distinct
from `WrongPassword`. -/
theorem c7_malformed_envelope (ext : Externals) (input : List Nat)
    (acc0 : AccountBase) (details0 : Details) (cache0 : List Nat)
    (h : parseEnvelope input = none) :
    (∀ password, deserialize ext input password acc0 details0 cache0 =
      ⟨acc0, cache0, details0, some WalletError.MalformedEnvelope⟩) ∧
    WalletError.MalformedEnvelope ≠ WalletError.WrongPassword := by
  refine ⟨fun password => ?_, by simp⟩
  simp only [deserialize, h]

/-- Witness for C7: a three-byte stream is not a wallet container and is
rejected as `MalformedEnvelope` under two different passwords. -/
theorem c7_malformed_envelope_witness :
    deserialize extA [1, 2, 3] [4] accPrior [5] [0] =
        ⟨accPrior, [0], [5], some WalletError.MalformedEnvelope⟩ ∧
      deserialize extA [1, 2, 3] [9, 9] accPrior [5] [0] =
        ⟨accPrior, [0], [5], some WalletError.MalformedEnvelope⟩ :=
  ⟨(c7_malformed_envelope extA [1, 2, 3] accPrior [5] [0] rfl).1 [4],
    (c7_malformed_envelope extA [1, 2, 3] accPrior [5] [0] rfl).1 [9, 9]⟩

/-- C6: when the envelope parses, the key block decodes, verification
passes and the has_details flag reads back true, `deserialize` decodes
the transaction-history block through the legacy v1 decoder exactly
when the envelope version equals 1, and through the current-format
decoder for every other version value, with no version rejection. -/
theorem c6_version_dispatch (ext : Externals) (input password : List Nat)
    (acc0 : AccountBase) (details0 : Details) (cache0 : List Nat)
    (version iv : Nat) (cipher rest : List Nat) (ks : KeysStorage) (r1 r2 : List Nat)
    (henv : parseEnvelope input = some (version, iv, cipher, rest))
    (hkp : keysStorageParse (decrypt ext cipher password iv) = some (ks, r1))
    (hver : verifyKeys ext (accountFromKeys ks) = true)
    (hb : getBool r1 = some (true, r2)) :
    (version = 1 → deserialize ext input password acc0 details0 cache0 =
      finishDetails ext.decodeDetailsLegacyV1 (accountFromKeys ks) details0 cache0 r2) ∧
    (version ≠ 1 → deserialize ext input password acc0 details0 cache0 =
      finishDetails ext.decodeDetails (accountFromKeys ks) details0 cache0 r2) := by
  constructor
  · intro hv
    simp [deserialize, henv, hkp, hver, afterVerify, hb, hv]
  · intro hv
    simp [deserialize, henv, hkp, hver, afterVerify, hb, hv]

/-- Witness for C6: a version-2 envelope whose payload carries a details
block decodes it through the current-format decoder. -/
theorem c6_version_dispatch_witness :
    deserialize extA
        (writeEnvelope 2 0 (saveKeys accGood ++ putBool true ++ putBlob [7, 7] ++ putBlob [9, 8]))
        [4] accPrior [5] [0] =
      finishDetails extA.decodeDetails (accountFromKeys ksGood) [5] [0]
        (putBlob [7, 7] ++ putBlob [9, 8]) :=
  (c6_version_dispatch extA
      (writeEnvelope 2 0 (saveKeys accGood ++ putBool true ++ putBlob [7, 7] ++ putBlob [9, 8]))
      [4] accPrior [5] [0] 2 0
      (saveKeys accGood ++ putBool true ++ putBlob [7, 7] ++ putBlob [9, 8]) []
      ksGood (putBool true ++ putBlob [7, 7] ++ putBlob [9, 8]) (putBlob [7, 7] ++ putBlob [9, 8])
      rfl rfl rfl rfl).2 (by decide)

/-- C10: whenever a `deserialize` run fails at one of the stages before
the final cache-blob read (envelope parse, key-block decode, key
verification, has_details read, or details decode), the caller's cache
out-parameter is left exactly as it was. -/
theorem c10_cache_untouched_on_early_failure (ext : Externals) (input password : List Nat)
    (acc0 : AccountBase) (details0 : Details) (cache0 : List Nat)
    (h : failsBeforeCacheRead ext input password = true) :
    (deserialize ext input password acc0 details0 cache0).cache = cache0 := by
  rcases henv : parseEnvelope input with _ | ⟨version, iv, cipher, rest⟩
  · simp [deserialize, henv]
  · simp only [failsBeforeCacheRead, henv] at h
    rcases hkp : keysStorageParse (decrypt ext cipher password iv) with _ | ⟨ks, r1⟩
    · simp [deserialize, henv, hkp]
    · simp only [hkp] at h
      by_cases hv : verifyKeys ext (accountFromKeys ks) = true
      · simp only [hv, if_true] at h
        simp only [deserialize, henv, hkp, hv, if_true]
        exact afterVerify_cache_of_fails ext version (accountFromKeys ks) details0 cache0 r1 h
      · simp [deserialize, henv, hkp, hv]

/-- Witness for C10: an empty stream fails at the envelope parse and the
cache out-parameter keeps its prior content. -/
theorem c10_cache_untouched_on_early_failure_witness :
    (deserialize extA [] [4] accPrior [5] [0]).cache = [0] :=
  c10_cache_untouched_on_early_failure extA [] [4] accPrior [5] [0] rfl

theorem deserialize_wrong_password_iff_verify_fails (ext : Externals)
    (input password : List Nat) (acc0 : AccountBase) (details0 : Details) (cache0 : List Nat)
    (version iv : Nat) (cipher rest : List Nat) (ks : KeysStorage) (r1 : List Nat)
    (henv : parseEnvelope input = some (version, iv, cipher, rest))
    (hkp : keysStorageParse (decrypt ext cipher password iv) = some (ks, r1)) :
    ((deserialize ext input password acc0 details0 cache0).outcome =
        some WalletError.WrongPassword) ↔
      verifyKeys ext (accountFromKeys ks) = false := by
  simp only [deserialize, henv, hkp]
  by_cases hv : verifyKeys ext (accountFromKeys ks) = true
  · simp only [hv, if_true]
    constructor
    · intro hout
      exact absurd hout (afterVerify_outcome ext version (accountFromKeys ks) details0 cache0 r1)
    · intro hf
      cases hf
  · have hf : verifyKeys ext (accountFromKeys ks) = false := Bool.eq_false_iff.mpr hv
    simp [hf]

/-- C2, counterexample to the claim as stated: a stream whose decoded
view pair is inconsistent makes `deserialize` fail with `WrongPassword`,
yet the caller's account object has already been overwritten with the
decoded keys, so a failing call does not leave the account untouched. -/
theorem c2_counterexample_account_mutated_on_failure :
    (deserialize extA (serialize extA accBadView [7, 7] [1, 2] false [9, 8] 0) [1, 2]
        accPrior [5] [0]).outcome = some WalletError.WrongPassword ∧
    (deserialize extA (serialize extA accBadView [7, 7] [1, 2] false [9, 8] 0) [1, 2]
        accPrior [5] [0]).account ≠ accPrior :=
  ⟨rfl, by decide⟩

/-- C2, amended: the account is left untouched exactly when the failure
comes at the envelope parse or the key-block decode; as soon as the key
block decodes, `loadKeys` commits the decoded keys and timestamp to the
account, before verification, so on a verification failure or any later
parse failure (and on success) the account holds the decoded keys. -/
theorem c2_amended_account_committed_at_key_decode (ext : Externals)
    (input password : List Nat) (acc0 : AccountBase) (details0 : Details) (cache0 : List Nat) :
    (parseEnvelope input = none →
      (deserialize ext input password acc0 details0 cache0).account = acc0) ∧
    (∀ version iv cipher rest,
      parseEnvelope input = some (version, iv, cipher, rest) →
      keysStorageParse (decrypt ext cipher password iv) = none →
      (deserialize ext input password acc0 details0 cache0).account = acc0) ∧
    (∀ version iv cipher rest ks r1,
      parseEnvelope input = some (version, iv, cipher, rest) →
      keysStorageParse (decrypt ext cipher password iv) = some (ks, r1) →
      (deserialize ext input password acc0 details0 cache0).account = accountFromKeys ks) := by
  refine ⟨fun h => ?_, fun version iv cipher rest henv hkp => ?_,
    fun version iv cipher rest ks r1 henv hkp => ?_⟩
  · simp [deserialize, h]
  · simp [deserialize, henv, hkp]
  · simp only [deserialize, henv, hkp]
    by_cases hv : verifyKeys ext (accountFromKeys ks) = true
    · simp only [hv, if_true]
      apply afterVerify_account
    · simp [hv]

/-- Witness for the amended C2: the stream written from `accBadView`
fails verification, and the reader's account ends up holding exactly
the decoded keys rather than its prior content. -/
theorem c2_amended_account_committed_at_key_decode_witness :
    (deserialize extA (serialize extA accBadView [7, 7] [1, 2] false [9, 8] 0) [1, 2]
        accPrior [5] [0]).account = accountFromKeys ksBadView :=
  (c2_amended_account_committed_at_key_decode extA
      (serialize extA accBadView [7, 7] [1, 2] false [9, 8] 0) [1, 2]
      accPrior [5] [0]).2.2 1 0
    (saveKeys accBadView ++ putBool false ++ putBlob [9, 8]) []
    ksBadView (putBool false ++ putBlob [9, 8]) rfl rfl

/-- C4, counterexample to the claim as stated: a decrypted payload whose
spend secret key is the null sentinel and whose spend public key is a
valid curve point still makes `deserialize` fail with `WrongPassword`,
because the view pair is inconsistent — so for watch-only payloads the
failure is not equivalent to the spend public key being malformed. -/
theorem c4_counterexample_view_check_also_fails :
    (deserialize extA (serialize extA accWatchBadView [7, 7] [1, 2] false [9, 8] 0) [1, 2]
        accPrior [5] [0]).outcome = some WalletError.WrongPassword ∧
    (deserialize extA (serialize extA accWatchBadView [7, 7] [1, 2] false [9, 8] 0) [1, 2]
        accPrior [5] [0]).account.keys.spendSecretKey = NULL_SECRET_KEY ∧
    extA.checkKey ((deserialize extA
        (serialize extA accWatchBadView [7, 7] [1, 2] false [9, 8] 0) [1, 2]
        accPrior [5] [0]).account.keys.spendPublicKey) = true :=
  ⟨rfl, rfl, rfl⟩

/-- C4, amended: given that the key block decodes and the view-pair
check passes, `deserialize` fails with `WrongPassword` exactly when the
spend public key is not a valid curve point (null spend secret key) or
the spend pair does not correspond (non-null spend secret key). -/
theorem c4_amended_spend_verification (ext : Externals)
    (input password : List Nat) (acc0 : AccountBase) (details0 : Details) (cache0 : List Nat)
    (version iv : Nat) (cipher rest : List Nat) (ks : KeysStorage) (r1 : List Nat)
    (henv : parseEnvelope input = some (version, iv, cipher, rest))
    (hkp : keysStorageParse (decrypt ext cipher password iv) = some (ks, r1))
    (hview : ext.keysMatch ks.viewSecretKey ks.viewPublicKey = true) :
    ((deserialize ext input password acc0 details0 cache0).outcome =
        some WalletError.WrongPassword) ↔
      (if ks.spendSecretKey = NULL_SECRET_KEY then ext.checkKey ks.spendPublicKey = false
       else ext.keysMatch ks.spendSecretKey ks.spendPublicKey = false) := by
  rw [deserialize_wrong_password_iff_verify_fails ext input password acc0 details0 cache0
    version iv cipher rest ks r1 henv hkp]
  by_cases hss : ks.spendSecretKey = NULL_SECRET_KEY <;>
    simp [verifyKeys, accountFromKeys, hview, hss]

/-- Witness for the amended C4: on the stream written from `accGood` the
view check passes and the equivalence instantiates; its right-hand side
is false there, so the run does not fail with `WrongPassword`. -/
theorem c4_amended_spend_verification_witness :
    (((deserialize extA (serialize extA accGood [] [1, 2] false [6] 0) [1, 2]
        accPrior [5] [0]).outcome = some WalletError.WrongPassword) ↔
      (if ksGood.spendSecretKey = NULL_SECRET_KEY then extA.checkKey ksGood.spendPublicKey = false
       else extA.keysMatch ksGood.spendSecretKey ksGood.spendPublicKey = false)) :=
  c4_amended_spend_verification extA (serialize extA accGood [] [1, 2] false [6] 0) [1, 2]
    accPrior [5] [0] 1 0 (saveKeys accGood ++ putBool false ++ putBlob [6]) []
    ksGood (putBool false ++ putBlob [6]) rfl rfl (by decide)

/-- C1: the round trip fails for detailed wallets. Writing `accGood`
with the detail flag set and reading the stream back with the same
password fails with a parse error and reproduces neither the history
content nor the cache bytes, because the writer stamps version 1 on the
envelope while the reader sends version-1 details to the structurally
different legacy decoder. The same payload under a version-2 envelope
round-trips completely, isolating the version constant as the cause. -/
theorem c1_roundtrip_fails_for_detailed_wallets :
    (deserialize extA (serialize extA accGood [7, 7] [1, 2] true [9, 8] 0) [1, 2]
        accPrior [5] [0]).outcome = some WalletError.ParseError ∧
    (deserialize extA (serialize extA accGood [7, 7] [1, 2] true [9, 8] 0) [1, 2]
        accPrior [5] [0]).details ≠ [7, 7] ∧
    (deserialize extA (serialize extA accGood [7, 7] [1, 2] true [9, 8] 0) [1, 2]
        accPrior [5] [0]).cache ≠ [9, 8] ∧
    deserialize extA
        (writeEnvelope 2 0 (saveKeys accGood ++ putBool true ++ putBlob [7, 7] ++ putBlob [9, 8]))
        [1, 2] accPrior [5] [0] = ⟨accGood, [9, 8], [7, 7], none⟩ :=
  ⟨rfl, by decide, by decide, rfl⟩

/-- C3: the writer's version constant is 1, a freshly serialized wallet
carries version 1 in its envelope, and reading such a file back with a
details block therefore takes the legacy v1 decode path (which rejects
the current-format details block, giving a parse error) rather than the
current details layout. -/
theorem c3_writer_version_selects_legacy_path :
    walletSerializationVersion = 1 ∧
    (parseEnvelope (serialize extA accGood [3] [1, 2] true [9] 0)).map (fun x => x.1) =
      some walletSerializationVersion ∧
    (deserialize extA (serialize extA accGood [3] [1, 2] true [9] 0) [1, 2]
        accPrior [5] [0]).outcome = some WalletError.ParseError :=
  ⟨rfl, rfl, rfl⟩

/-- Model-sanity round trip: with the detail flag off, reading back a
freshly written stream with the same password succeeds and reproduces
the account's keys, creation timestamp and cache bytes exactly, for any
collaborators; so the failing round trip for detailed wallets is caused
by the version dispatch alone. -/
theorem deserialize_serialize_noDetails (ext : Externals) (account : AccountBase)
    (details : Details) (password cache : List Nat) (iv : Nat)
    (acc0 : AccountBase) (details0 : Details) (cache0 : List Nat)
    (hts : account.createtime < 2 ^ 64)
    (h1 : account.keys.spendPublicKey < 2 ^ 256) (h2 : account.keys.spendSecretKey < 2 ^ 256)
    (h3 : account.keys.viewPublicKey < 2 ^ 256) (h4 : account.keys.viewSecretKey < 2 ^ 256)
    (hiv : iv < 2 ^ 64) (hcache : cache.length < 2 ^ 31)
    (hver : verifyKeys ext account = true) :
    deserialize ext (serialize ext account details password false cache iv) password
      acc0 details0 cache0 = ⟨account, cache, details0, none⟩ := by
  have hsk : (saveKeys account).length = 136 := by
    simp [saveKeys, keysStorageBytes, toLE_length]
  have hplain :
      (saveKeys account ++ putBool false ++ putBlob cache).length = 141 + cache.length := by
    simp [hsk, putBool, putBlob, toLE_length]
    omega
  have hclen :
      (chacha8 ext (ext.deriveKey password) iv
        (saveKeys account ++ putBool false ++ putBlob cache)).length < 2 ^ 32 := by
    rw [chacha8_length, hplain]
    omega
  have hser : serialize ext account details password false cache iv =
      writeEnvelope 1 iv
        (chacha8 ext (ext.deriveKey password) iv
          (saveKeys account ++ putBool false ++ putBlob cache)) := by
    simp [serialize, encrypt, walletSerializationVersion]
  rw [hser]
  rw [deserialize,
    parseEnvelope_writeEnvelope 1 iv _ (by norm_num) hiv hclen]
  simp only
  rw [decrypt, chacha8_chacha8]
  have hkeys : saveKeys account ++ putBool false ++ putBlob cache =
      keysStorageBytes
        { creationTimestamp := account.createtime
          spendPublicKey := account.keys.spendPublicKey
          spendSecretKey := account.keys.spendSecretKey
          viewPublicKey := account.keys.viewPublicKey
          viewSecretKey := account.keys.viewSecretKey } ++ (putBool false ++ putBlob cache) := by
    simp [saveKeys, List.append_assoc]
  rw [hkeys, keysStorageParse_append _ _ hts h1 h2 h3 h4]
  simp only
  have hacc :
      accountFromKeys
        { creationTimestamp := account.createtime
          spendPublicKey := account.keys.spendPublicKey
          spendSecretKey := account.keys.spendSecretKey
          viewPublicKey := account.keys.viewPublicKey
          viewSecretKey := account.keys.viewSecretKey } = account := rfl
  rw [hacc, hver]
  simp only [if_true]
  rw [afterVerify, getBool_putBool]
  simp only [Bool.false_eq_true, if_false]
  rw [finishCache, ← List.append_nil (putBlob cache),
    getBlob_putBlob cache [] (by omega)]

end WalletLegacy
